import Mathlib

/-!
Verification development for the AutoGLM-GUI device streaming and
connection-management subsystem.

The definitions below are a shallow embedding of the Python sources:
  * `AutoGLM_GUI/adb_plus/pair.py`      (`pair_device`)
  * `AutoGLM_GUI/api/devices.py`        (`pair_wifi`, `connect_wifi_manual`, `connect_wifi`)
  * `AutoGLM_GUI/api/media.py`          (`video_stream_ws`, the relay loop)
  * `AutoGLM_GUI/state.py`              (the session registry maps)
The device transport layer (adb subprocess calls, `ADBConnection`) is the
external boundary; its outcomes enter the model as explicit oracle values
and every invocation is recorded in a call trace, so that
"performs no network call" becomes a statement about that trace.
-/

namespace AutoGLM

/-! ### Python string primitives

Bytes and text are modelled as `List Char` / `String`; the helpers below
mirror the exact Python semantics the sources rely on (truthiness,
`str.lower`, `str.strip`, `str.isdigit`, substring containment). -/

/-- Python truthiness of an optional bytes/str value: `None` and the empty
sequence are falsy, everything else is truthy. -/
def pyTruthy : Option (List Nat) → Bool
  | none => false
  | some l => !l.isEmpty

/-- Python truthiness of an optional string. -/
def pyTruthyStr : Option String → Bool
  | none => false
  | some s => !(s = "")

/-- ASCII lowercasing of one character, as `str.lower` acts on the ASCII
range (the only range relevant to the needles searched for here). -/
def asciiLower (c : Char) : Char :=
  if 'A' ≤ c ∧ c ≤ 'Z' then Char.ofNat (c.toNat + 32) else c

/-- Lowercase a character list. -/
def lowerStr (l : List Char) : List Char := l.map asciiLower

/-- Substring containment: `csub needle hay` is true iff `needle` occurs
contiguously in `hay` (Python `needle in hay`). -/
def csub (needle : List Char) : List Char → Bool
  | [] => needle.isEmpty
  | c :: rest => needle.isPrefixOf (c :: rest) || csub needle rest

/-- ASCII whitespace, as stripped by `str.strip()`. -/
def isPySpace (c : Char) : Bool :=
  c = ' ' ∨ c = '\t' ∨ c = '\n' ∨ c = '\x0d' ∨ c = '\x0b' ∨ c = '\x0c'

/-- Python `str.strip()`: drop whitespace from both ends. -/
def pyStrip (l : List Char) : List Char :=
  ((l.dropWhile isPySpace).reverse.dropWhile isPySpace).reverse

/-- Python `str.isdigit` on one character.  `str.isdigit` accepts every
Unicode decimal digit, not only ASCII; the model covers the ASCII digits
and the Arabic-Indic digit block U+0660 to U+0669 (it is exact on ASCII
text, and on the non-ASCII inputs considered in the theorems below). -/
def pyIsdigitChar (c : Char) : Bool :=
  ('0' ≤ c ∧ c ≤ '9') ∨ (0x660 ≤ c.toNat ∧ c.toNat ≤ 0x669)

/-- Python `str.isdigit`: non-empty and every character a digit. -/
def pyStrIsdigit (l : List Char) : Bool :=
  !l.isEmpty && l.all pyIsdigitChar

/-- ASCII decimal digit test (what the spec means by "ASCII digit"). -/
def isAsciiDigit (c : Char) : Bool := '0' ≤ c ∧ c ≤ '9'

/-- Split a character list on the dot character (Python `s.split(".")`). -/
def splitOnDot : List Char → List (List Char)
  | [] => [[]]
  | c :: rest =>
    if c = '.' then [] :: splitOnDot rest
    else
      match splitOnDot rest with
      | [] => [[c]]
      | p :: ps => (c :: p) :: ps

/-- One dotted group of the IP regex: between 1 and 3 ASCII digits. -/
def ipGroup (l : List Char) : Bool :=
  decide (1 ≤ l.length) && decide (l.length ≤ 3) && l.all isAsciiDigit

/-- The IP syntax check of `devices.py`, regex
`^(?:[0-9]\x7b1,3\x7d\.)\x7b3\x7d[0-9]\x7b1,3\x7d$`: exactly four
dot-separated groups of one to three ASCII digits. -/
def matchesIpPattern (l : List Char) : Bool :=
  match splitOnDot l with
  | [a, b, c, d] => ipGroup a && ipGroup b && ipGroup c && ipGroup d
  | _ => false

/-! ### Transport boundary

Every adb-level operation performed by the connection-management code is
recorded as an `AdbCall`; the outcome of each operation is supplied by an
explicit oracle value, since the transport layer (`ADBConnection`,
`run_cmd_silently_sync`) is external to this subsystem. -/

/-- One invocation of the device transport layer. -/
inductive AdbCall where
  | pairCmd (address : String) (code : String)
  | connectCmd (address : String)
  | enableTcpipCmd (port : Int) (device : String)
  | getWifiIpCmd (device : String)
  | getDeviceIpCmd (device : String)
  | getDeviceInfoCmd
  | disconnectCmd (device : String)
  deriving DecidableEq, Repr

/-- Outcome of `run_cmd_silently_sync([adb, "pair", ...])`: either the
completed process with its stdout and stderr text, or a raised exception
with its message. -/
inductive PairTransport where
  | completed (stdout stderr : String)
  | raised (msg : String)
  deriving DecidableEq, Repr

/-! ### `adb_plus/pair.py` : `pair_device` -/

/-- Classification of the combined stdout+stderr text of `adb pair`, the
body of `pair_device` after the subprocess call (pair.py lines 40-57). -/
def classifyPairOutput (address : String) (output : String) : Bool × String :=
  if csub "Successfully paired".data output.data
      || csub "success".data (lowerStr output.data) then
    (true, "Successfully paired to " ++ address)
  else if csub "failed".data (lowerStr output.data) then
    if csub "pairing code".data (lowerStr output.data) then
      (false, "Invalid pairing code")
    else if csub "refused".data (lowerStr output.data) then
      (false, "Connection refused - check if wireless debugging is enabled")
    else
      (false, "Pairing failed: " ++ String.mk (pyStrip output.data))
  else
    (false,
      if pyStrip output.data ≠ [] then String.mk (pyStrip output.data)
      else "Unknown pairing error")

/-- Embedding of `pair_device(ip, port, pairing_code, adb_path)` from
`adb_plus/pair.py`.  Returns the (success, message) pair together with the
list of transport invocations it performed. -/
def pair_device (ip : String) (port : Int) (pairing_code : String)
    (tr : PairTransport) : (Bool × String) × List AdbCall :=
  if !(pyStrIsdigit pairing_code.data) || pairing_code.length ≠ 6 then
    ((false, "Pairing code must be 6 digits"), [])
  else
    let address := ip ++ ":" ++ toString port
    match tr with
    | .raised m => ((false, "Pairing error: " ++ m), [.pairCmd address pairing_code])
    | .completed out err =>
        (classifyPairOutput address (out ++ err), [.pairCmd address pairing_code])

/-! ### `api/devices.py` -/

/-- Response shape shared by the WiFi connection endpoints (schemas.py):
success flag, message, optional error code and optional device id /
address. -/
structure WiFiResponse where
  success : Bool
  message : String
  dev : Option String
  address : Option String
  error : Option String
  deriving DecidableEq, Repr

/-- Embedding of `pair_wifi` (devices.py lines 174-245).  The transport
outcomes of the `adb pair` subprocess and of `conn.connect` are oracle
inputs; the returned trace records which transport calls happened. -/
def pair_wifi (ip : String) (pairing_port connection_port : Int)
    (pairing_code : String) (tr : PairTransport) (connectRes : Bool × String) :
    WiFiResponse × List AdbCall :=
  if !(matchesIpPattern ip.data) then
    (⟨false, "Invalid IP address format", none, none, some "invalid_ip"⟩, [])
  else if !(decide (1 ≤ pairing_port) && decide (pairing_port ≤ 65535)) then
    (⟨false, "Pairing port must be between 1 and 65535", none, none,
      some "invalid_port"⟩, [])
  else if !(decide (1 ≤ connection_port) && decide (connection_port ≤ 65535)) then
    (⟨false, "Connection port must be between 1 and 65535", none, none,
      some "invalid_port"⟩, [])
  else if !(pyStrIsdigit pairing_code.data) || pairing_code.length ≠ 6 then
    (⟨false, "Pairing code must be 6 digits", none, none,
      some "invalid_pairing_code"⟩, [])
  else
    let pr := pair_device ip pairing_port pairing_code tr
    if !pr.1.1 then
      (⟨false, pr.1.2, none, none, some "pair_failed"⟩, pr.2)
    else
      let connection_address := ip ++ ":" ++ toString connection_port
      let calls := pr.2 ++ [.connectCmd connection_address]
      if !connectRes.1 then
        (⟨false, "Paired successfully but connection failed: " ++ connectRes.2,
          none, none, some "connect_failed"⟩, calls)
      else
        (⟨true, "Successfully paired and connected to " ++ connection_address,
          some connection_address, none, none⟩, calls)

/-- Embedding of `connect_wifi_manual` (devices.py lines 129-170). -/
def connect_wifi_manual (ip : String) (port : Int)
    (connectRes : Bool × String) : WiFiResponse × List AdbCall :=
  if !(matchesIpPattern ip.data) then
    (⟨false, "Invalid IP address format", none, none, some "invalid_ip"⟩, [])
  else if !(decide (1 ≤ port) && decide (port ≤ 65535)) then
    (⟨false, "Port must be between 1 and 65535", none, none,
      some "invalid_port"⟩, [])
  else
    let address := ip ++ ":" ++ toString port
    if !connectRes.1 then
      (⟨false,
        (if connectRes.2 ≠ "" then connectRes.2
         else "Failed to connect to " ++ address),
        none, none, some "connect_failed"⟩, [.connectCmd address])
    else
      (⟨true, "Successfully connected to " ++ address, some address, none,
        none⟩, [.connectCmd address])

/-- Connection type of a device as reported by the transport layer
(`phone_agent.adb.ConnectionType`): USB or remote (WiFi). -/
inductive ConnectionType where
  | usb
  | remote
  deriving DecidableEq, Repr

/-- Device info record as used by `connect_wifi`: the transport-level
device id and its connection type. -/
structure DeviceInfo where
  device_id : String
  connection_type : ConnectionType
  deriving DecidableEq, Repr

/-- Oracle outcomes for the transport operations `connect_wifi` performs:
`conn.get_device_info`, `conn.enable_tcpip`, `get_wifi_ip`,
`conn.get_device_ip`, `conn.connect`. -/
structure ConnectWifiEnv where
  device_info : Option DeviceInfo
  tcpip : Bool × String
  wifi_ip : Option String
  general_ip : Option String
  connectRes : Bool × String
  deriving DecidableEq, Repr

/-- Embedding of `connect_wifi` (devices.py lines 51-108).  Mirrors the
step sequence: get device info, idempotent WiFi short-circuit, enable
tcpip, IP discovery with WiFi-preferring lookup and fallback, connect. -/
def connect_wifi (_request_device_id : Option String) (request_port : Int)
    (env : ConnectWifiEnv) : WiFiResponse × List AdbCall :=
  match env.device_info with
  | none =>
    (⟨false, "No connected device found", none, none, some "device_not_found"⟩,
      [.getDeviceInfoCmd])
  | some info =>
    if info.connection_type = ConnectionType.remote then
      (⟨true, "Already connected over WiFi", some info.device_id,
        some info.device_id, none⟩, [.getDeviceInfoCmd])
    else
      let tcpipCalls := [AdbCall.getDeviceInfoCmd,
        AdbCall.enableTcpipCmd request_port info.device_id]
      if !env.tcpip.1 then
        (⟨false,
          (if env.tcpip.2 ≠ "" then env.tcpip.2 else "Failed to enable tcpip"),
          none, none, some "tcpip"⟩, tcpipCalls)
      else
        let ipCalls := tcpipCalls ++
          (if pyTruthyStr env.wifi_ip then [AdbCall.getWifiIpCmd info.device_id]
           else [AdbCall.getWifiIpCmd info.device_id,
                 AdbCall.getDeviceIpCmd info.device_id])
        let ip := if pyTruthyStr env.wifi_ip then env.wifi_ip else env.general_ip
        if !(pyTruthyStr ip) then
          (⟨false, "Failed to get device IP", none, none, some "ip"⟩, ipCalls)
        else
          let address := ip.getD "" ++ ":" ++ toString request_port
          let calls := ipCalls ++ [AdbCall.connectCmd address]
          if !env.connectRes.1 then
            (⟨false,
              (if env.connectRes.2 ≠ "" then env.connectRes.2
               else "Failed to connect over WiFi"),
              none, none, some "connect"⟩, calls)
          else
            (⟨true, "Switched to WiFi successfully", some address, some address,
              none⟩, calls)

/-! ### Capture session (`ScrcpyStreamer`)

The class `ScrcpyStreamer` lives in `AutoGLM_GUI/scrcpy_stream.py`, which is
not part of the sources available here; its state and the operations used
by `api/media.py` are modelled from the spec (sections 3 and 4.1). -/

/-- Modelled from the spec: the per-device Capture Session state of
`ScrcpyStreamer` (scrcpy_stream.py, absent from the sources): the cached
SPS/PPS/IDR bytes, each at most one cached copy, plus the constructor
arguments used at the creation site in media.py. -/
structure ScrcpyStreamer where
  device_id : String
  max_size : Nat
  bit_rate : Nat
  cached_sps : Option (List Nat)
  cached_pps : Option (List Nat)
  cached_idr : Option (List Nat)
  deriving DecidableEq, Repr

/-- The `ScrcpyStreamer(device_id=..., max_size=1280, bit_rate=4_000_000)`
constructor call of media.py line 106: fresh session, nothing cached. -/
def mkStreamer (dev : String) : ScrcpyStreamer :=
  ⟨dev, 1280, 4000000, none, none, none⟩

/-- NAL unit type: low 5 bits of the byte after the 4-byte start code,
`nal_unit[4] & 0x1F` when the unit is longer than 4 bytes, `-1` otherwise
(media.py line 122). -/
def nalTypeOf (u : List Nat) : Int :=
  if 4 < u.length then ((u.getD 4 0) % 32 : Nat) else -1

/-- Modelled from the spec: the auto-cache step of
`read_nal_unit(auto_cache=True)` (scrcpy_stream.py, absent from the
sources): if the unit type is SPS (7), PPS (8) or IDR (5) and no cached
copy exists yet, store a copy; otherwise leave the cache unchanged. -/
def cacheUnit (s : ScrcpyStreamer) (u : List Nat) : ScrcpyStreamer :=
  let t := nalTypeOf u
  if t = 7 ∧ s.cached_sps = none then { s with cached_sps := some u }
  else if t = 8 ∧ s.cached_pps = none then { s with cached_pps := some u }
  else if t = 5 ∧ s.cached_idr = none then { s with cached_idr := some u }
  else s

/-- Modelled from the spec: `get_initialization_data` (scrcpy_stream.py,
absent from the sources): the bootstrap blob SPS ++ PPS ++ IDR when all
three are cached, else the not-ready sentinel; never blocks. -/
def get_initialization_data (s : ScrcpyStreamer) : Option (List Nat) :=
  match s.cached_sps, s.cached_pps, s.cached_idr with
  | some a, some b, some c => some (a ++ b ++ c)
  | _, _, _ => none

/-! ### Relay handler (`api/media.py`, `video_stream_ws`) -/

/-- Observable event of one run of the websocket handler. -/
inductive Ev where
  | acceptWs
  | sendJsonError (msg : String)
  | sendBytes (data : List Nat)
  | createStreamer (device : String)
  | startCapture (device : String)
  | stopStreamer (device : String)
  | removeStreamer (device : String)
  | acquireLock (device : String)
  | releaseLock (device : String)
  | sleepHalfSec
  deriving DecidableEq, Repr

/-- Outcome of one `read_nal_unit` call during initialization: a complete
unit, or a raised read error. -/
inductive ReadResult where
  | ok (u : List Nat)
  | err (msg : String)

/-- How the forward loop of a viewer ends: a mid-stream `ConnectionError`
from the device side, an ordinary viewer disconnect
(`WebSocketDisconnect`), or any other exception; `writable` records
whether the error report to the viewer still succeeds. -/
inductive StreamEnd where
  | connError (msg : String) (writable : Bool)
  | disconnect
  | otherError (msg : String) (writable : Bool)

/-- Environment of one handler run: every outcome supplied by the device
socket, the capture start and the viewer connection. -/
structure StreamEnv where
  startRes : Option String
  reads : Nat → ReadResult
  sendInitRes : Option String
  initErrWritable : Bool
  reuseErrWritable : Bool
  frames : List (List Nat)
  ending : StreamEnd

/-- The initialization read loop of media.py lines 119-141: up to `fuel`
(20) read attempts; a successful read is auto-cached and the loop breaks
once SPS, PPS and IDR are all (truthily) cached; a failed read sleeps
0.5 s and continues. -/
def initLoop (reads : Nat → ReadResult) :
    Nat → Nat → ScrcpyStreamer → ScrcpyStreamer × List Ev
  | 0, _, s => (s, [])
  | fuel + 1, i, s =>
    match reads i with
    | .ok u =>
      if pyTruthy (cacheUnit s u).cached_sps && pyTruthy (cacheUnit s u).cached_pps
          && pyTruthy (cacheUnit s u).cached_idr then (cacheUnit s u, [])
      else initLoop reads fuel (i + 1) (cacheUnit s u)
    | .err _ =>
      ((initLoop reads fuel (i + 1) s).1,
        Ev.sleepHalfSec :: (initLoop reads fuel (i + 1) s).2)

/-- The first-attach branch of media.py lines 104-172: create the
streamer, start capture, run the init loop, then either send the bootstrap
blob as one message, or on any failure stop the streamer, delete it from
the registry and report the error to the viewer if still writable.
Returns the registered streamer (`none` when the attach failed and the
entry was removed) and the events of the branch. -/
def firstAttach (dev : String) (env : StreamEnv) :
    Option ScrcpyStreamer × List Ev :=
  match env.startRes with
  | some m =>
    (none, [.createStreamer dev, .startCapture dev, .stopStreamer dev,
      .removeStreamer dev] ++
      (if env.initErrWritable then [Ev.sendJsonError m] else []))
  | none =>
    let r := initLoop env.reads 20 0 (mkStreamer dev)
    let idata := get_initialization_data r.1
    if pyTruthy idata then
      match env.sendInitRes with
      | none =>
        (some r.1, [.createStreamer dev, .startCapture dev] ++ r.2 ++
          [Ev.sendBytes (idata.getD [])])
      | some m =>
        (none, [.createStreamer dev, .startCapture dev] ++ r.2 ++
          [.stopStreamer dev, .removeStreamer dev] ++
          (if env.initErrWritable then [Ev.sendJsonError m] else []))
    else
      (none, [.createStreamer dev, .startCapture dev] ++ r.2 ++
        [.stopStreamer dev, .removeStreamer dev] ++
        (if env.initErrWritable then
          [Ev.sendJsonError
            "Failed to get initialization data (missing SPS/PPS/IDR)"]
         else []))

/-- The reuse branch of media.py lines 173-221: poll
`get_initialization_data` up to 10 times with 0.5 s spacing, then either
send the cached bootstrap blob as one message or report the timeout and
bail out.  Returns whether the handler proceeds to the forward loop. -/
def reuseAttach (dev : String) (s : ScrcpyStreamer) (env : StreamEnv) :
    Bool × List Ev :=
  let idata := get_initialization_data s
  if pyTruthy idata then
    (true, [Ev.sendBytes (idata.getD [])])
  else
    (false, List.replicate 10 Ev.sleepHalfSec ++
      (if env.reuseErrWritable then
        [Ev.sendJsonError ("Initialization data not ready for device "
          ++ dev ++ " after 5 seconds")]
       else []))

/-- The forward loop of media.py lines 226-265: each successfully read
unit is auto-cached and forwarded as one frame; the loop ends with a
mid-stream connection error (reported if writable, stream marked failed),
an ordinary viewer disconnect (not a failure), or another exception
(reported if writable, stream marked failed). -/
def forwardLoop (s : ScrcpyStreamer) :
    List (List Nat) → StreamEnd → ScrcpyStreamer × List Ev × Bool
  | [], e =>
    match e with
    | .connError m w =>
      (s, (if w then [Ev.sendJsonError ("Stream error: " ++ m)] else []), true)
    | .disconnect => (s, [], false)
    | .otherError m w =>
      (s, (if w then [Ev.sendJsonError m] else []), true)
  | u :: rest, e =>
    ((forwardLoop (cacheUnit s u) rest e).1,
      Ev.sendBytes u :: (forwardLoop (cacheUnit s u) rest e).2.1,
      (forwardLoop (cacheUnit s u) rest e).2.2)

/-- The shared registry state of state.py lines 22-23: the per-device
streamer map and the set of device ids that own a lock. -/
structure MediaState where
  streamers : List (String × ScrcpyStreamer)
  locks : List String
  deriving DecidableEq, Repr

/-- Association list lookup for the streamer registry. -/
def lookupS : List (String × ScrcpyStreamer) → String → Option ScrcpyStreamer
  | [], _ => none
  | (k, v) :: rest, d => if k = d then some v else lookupS rest d

/-- Association list update (dict assignment). -/
def setS (l : List (String × ScrcpyStreamer)) (d : String)
    (v : ScrcpyStreamer) : List (String × ScrcpyStreamer) :=
  match l with
  | [] => [(d, v)]
  | (k, w) :: rest => if k = d then (d, v) :: rest else (k, w) :: setS rest d v

/-- Association list removal (dict `del`). -/
def removeS (l : List (String × ScrcpyStreamer)) (d : String) :
    List (String × ScrcpyStreamer) :=
  match l with
  | [] => []
  | (k, w) :: rest => if k = d then removeS rest d else (k, w) :: removeS rest d

/-- Embedding of the websocket handler `video_stream_ws` (media.py lines
76-279) as a function of the shared registry state, the `device_id` query
parameter and the environment: accept, reject a missing device id, ensure
a lock entry, then under the device lock either first-attach or reuse, and
finally run the forward loop, tearing the session down on stream failure
(debug capture disabled, as by default). -/
def video_stream_ws (st : MediaState) (device_id : Option String)
    (env : StreamEnv) : MediaState × List Ev :=
  match device_id with
  | none => (st, [.acceptWs, .sendJsonError "device_id is required"])
  | some dev =>
    let locks1 := if st.locks.contains dev then st.locks else st.locks ++ [dev]
    match lookupS st.streamers dev with
    | none =>
      match firstAttach dev env with
      | (none, evs) =>
        (⟨removeS (setS st.streamers dev (mkStreamer dev)) dev, locks1⟩,
          [.acceptWs, .acquireLock dev] ++ evs ++ [Ev.releaseLock dev])
      | (some s1, evs) =>
        let f := forwardLoop s1 env.frames env.ending
        let preEvs := [Ev.acceptWs, .acquireLock dev] ++ evs ++
          [Ev.releaseLock dev] ++ f.2.1
        if f.2.2 then
          (⟨removeS (setS st.streamers dev f.1) dev, locks1⟩,
            preEvs ++ [.acquireLock dev, .stopStreamer dev,
              .removeStreamer dev, .releaseLock dev])
        else
          (⟨setS st.streamers dev f.1, locks1⟩, preEvs)
    | some sExist =>
      let ra := reuseAttach dev sExist env
      if ra.1 then
        let f := forwardLoop sExist env.frames env.ending
        let preEvs := [Ev.acceptWs, .acquireLock dev] ++ ra.2 ++
          [Ev.releaseLock dev] ++ f.2.1
        if f.2.2 then
          (⟨removeS st.streamers dev, locks1⟩,
            preEvs ++ [.acquireLock dev, .stopStreamer dev,
              .removeStreamer dev, .releaseLock dev])
        else
          (⟨setS st.streamers dev f.1, locks1⟩, preEvs)
      else
        (⟨st.streamers, locks1⟩, [Ev.acceptWs, .acquireLock dev] ++ ra.2 ++
          [Ev.releaseLock dev])

/-! ### Trace and invariant vocabulary used by the theorems -/

/-- A cached bootstrap entry holds only a unit of the stated NAL type. -/
def wfCache (t : Int) (o : Option (List Nat)) : Prop :=
  ∀ u, o = some u → nalTypeOf u = t

/-- Well-formed session: the SPS, PPS and IDR caches hold only units of
NAL type 7, 8 and 5 respectively — exactly what the auto-cache stores.
Since a typed unit is longer than its 4-byte start code, every cached
unit is in particular non-empty. -/
def wfStreamer (s : ScrcpyStreamer) : Prop :=
  wfCache 7 s.cached_sps ∧ wfCache 8 s.cached_pps ∧ wfCache 5 s.cached_idr

/-- Events emitted after the forward loop ends. -/
def endEvs : StreamEnd → List Ev
  | .connError m w => if w then [Ev.sendJsonError ("Stream error: " ++ m)] else []
  | .disconnect => []
  | .otherError m w => if w then [Ev.sendJsonError m] else []

/-- Whether the given stream ending marks the stream as failed. -/
def endFailed : StreamEnd → Bool
  | .disconnect => false
  | _ => true

/-- Lock acquisition or release events. -/
def lockEv (e : Ev) : Bool :=
  match e with
  | Ev.acquireLock _ => true
  | Ev.releaseLock _ => true
  | _ => false

/-- First binary frame in an event trace, if any. -/
def firstBytes : List Ev → Option (List Nat)
  | [] => none
  | Ev.sendBytes b :: _ => some b
  | _ :: rest => firstBytes rest

/-! ## Theorems -/

/-- Python `str.isdigit` agrees with the ASCII digit test on ASCII
characters. -/
lemma pyIsdigitChar_ascii (c : Char) (h : c.toNat < 128) :
    pyIsdigitChar c = isAsciiDigit c := by
  have hb : ¬(0x660 ≤ c.toNat ∧ c.toNat ≤ 0x669) := by omega
  simp [pyIsdigitChar, isAsciiDigit, hb]

/-- On all-ASCII text, Python `str.isdigit` is the ASCII digit check. -/
lemma pyStrIsdigit_ascii (l : List Char) (h : ∀ c ∈ l, c.toNat < 128) :
    pyStrIsdigit l = (!l.isEmpty && l.all isAsciiDigit) := by
  unfold pyStrIsdigit
  congr 1
  induction l with
  | nil => rfl
  | cons c rest ih =>
    simp only [List.all_cons]
    rw [pyIsdigitChar_ascii c (h c (by simp)), ih (fun x hx => h x (by simp [hx]))]

/-- C5: with valid ip, ports and code, `pair_wifi` pairs exactly once at
`ip:pairing_port`; a pair failure is reported as `pair_failed` with no
connect call; after a successful pair it connects at `ip:connection_port`,
a connect failure yields the distinct `connect_failed` outcome with the
"Paired successfully but connection failed" message, and full success
returns device id `ip:connection_port`; invalid inputs are rejected before
any transport call. -/
theorem pair_and_connect_flow (ip code : String) (pp cp : Int)
    (tr : PairTransport) (cres : Bool × String)
    (hip : matchesIpPattern ip.data = true)
    (hpp1 : 1 ≤ pp) (hpp2 : pp ≤ 65535)
    (hcp1 : 1 ≤ cp) (hcp2 : cp ≤ 65535)
    (hdig : pyStrIsdigit code.data = true) (hlen : code.length = 6) :
    ((pair_device ip pp code tr).2 =
      [AdbCall.pairCmd (ip ++ ":" ++ toString pp) code]) ∧
    ((pair_device ip pp code tr).1.1 = false →
      (pair_wifi ip pp cp code tr cres).1.error = some "pair_failed" ∧
      (pair_wifi ip pp cp code tr cres).1.message = (pair_device ip pp code tr).1.2 ∧
      ∀ a, AdbCall.connectCmd a ∉ (pair_wifi ip pp cp code tr cres).2) ∧
    ((pair_device ip pp code tr).1.1 = true →
      (pair_wifi ip pp cp code tr cres).2 =
        (pair_device ip pp code tr).2 ++
          [AdbCall.connectCmd (ip ++ ":" ++ toString cp)]) ∧
    ((pair_device ip pp code tr).1.1 = true → cres.1 = false →
      (pair_wifi ip pp cp code tr cres).1 =
        ⟨false, "Paired successfully but connection failed: " ++ cres.2,
          none, none, some "connect_failed"⟩ ∧
      (some "connect_failed" : Option String) ≠ some "pair_failed") ∧
    ((pair_device ip pp code tr).1.1 = true → cres.1 = true →
      (pair_wifi ip pp cp code tr cres).1 =
        ⟨true, "Successfully paired and connected to " ++ (ip ++ ":" ++ toString cp),
          some (ip ++ ":" ++ toString cp), none, none⟩) ∧
    (∀ ip2 : String, matchesIpPattern ip2.data = false →
      pair_wifi ip2 pp cp code tr cres =
        (⟨false, "Invalid IP address format", none, none, some "invalid_ip"⟩, [])) ∧
    (∀ code2 : String, pyStrIsdigit code2.data = false →
      pair_wifi ip pp cp code2 tr cres =
        (⟨false, "Pairing code must be 6 digits", none, none,
          some "invalid_pairing_code"⟩, [])) := by
  refine ⟨?_, ?_, ?_, ?_, ?_, ?_, ?_⟩
  · rcases tr with ⟨o, e⟩ | m <;> simp [pair_device, hdig, hlen]
  · intro hpf
    rcases tr with ⟨o, e⟩ | m <;>
      simp [pair_device, hdig, hlen] at hpf <;>
      simp [pair_wifi, pair_device, hip, hpp1, hpp2, hcp1, hcp2, hdig, hlen, hpf]
  · intro hps
    rcases tr with ⟨o, e⟩ | m <;>
      simp [pair_device, hdig, hlen] at hps <;>
      simp [pair_wifi, pair_device, hip, hpp1, hpp2, hcp1, hcp2, hdig, hlen,
        hps] <;>
      (try split_ifs <;> rfl)
  · intro hps hcf
    rcases tr with ⟨o, e⟩ | m <;>
      simp [pair_device, hdig, hlen] at hps <;>
      simp [pair_wifi, pair_device, hip, hpp1, hpp2, hcp1, hcp2, hdig, hlen,
        hps, hcf]
  · intro hps hcs
    rcases tr with ⟨o, e⟩ | m <;>
      simp [pair_device, hdig, hlen] at hps <;>
      simp [pair_wifi, pair_device, hip, hpp1, hpp2, hcp1, hcp2, hdig, hlen,
        hps, hcs]
  · intro ip2 hip2
    simp [pair_wifi, hip2]
  · intro code2 hcode2
    simp [pair_wifi, hip, hpp1, hpp2, hcp1, hcp2, hcode2]

/-- Witness for C5: the spec example, pairing code "197872" at
192.168.1.100:37831 with a successful pair and a failed connect, gives the
distinct paired-but-not-connected outcome. -/
theorem pair_and_connect_flow_witness :
    (pair_wifi "192.168.1.100" 37831 5555 "197872"
      (.completed "Successfully paired to 192.168.1.100:37831" "")
      (false, "cannot connect")).1 =
      ⟨false, "Paired successfully but connection failed: cannot connect",
        none, none, some "connect_failed"⟩ ∧
    (some "connect_failed" : Option String) ≠ some "pair_failed" := by
  have h := pair_and_connect_flow "192.168.1.100" "197872" 37831 5555
    (.completed "Successfully paired to 192.168.1.100:37831" "")
    (false, "cannot connect") (by decide) (by decide) (by decide) (by decide)
    (by decide) (by decide) (by decide)
  exact h.2.2.2.1 (by decide) rfl

/-- C6 counterexample: a pairing code of six Arabic-Indic digits (U+0660)
is not six ASCII digits, yet `pair_wifi` does not reject it with
`invalid_pairing_code` and it does invoke the pair transport command,
because Python `str.isdigit` accepts any Unicode decimal digit. -/
theorem pairing_code_unicode_accepted :
    (String.mk (List.replicate 6 (Char.ofNat 0x660))).data.all isAsciiDigit
      = false ∧
    (pair_wifi "192.168.1.100" 37831 5555
        (String.mk (List.replicate 6 (Char.ofNat 0x660)))
        (.completed "Successfully paired to 192.168.1.100:37831" "")
        (true, "")).1.error ≠ some "invalid_pairing_code" ∧
    AdbCall.pairCmd "192.168.1.100:37831"
        (String.mk (List.replicate 6 (Char.ofNat 0x660))) ∈
      (pair_wifi "192.168.1.100" 37831 5555
        (String.mk (List.replicate 6 (Char.ofNat 0x660)))
        (.completed "Successfully paired to 192.168.1.100:37831" "")
        (true, "")).2 := by decide

/-- C6 (amended): for a request with valid ip and ports whose pairing code
consists of ASCII characters and is not exactly six ASCII digits,
`pair_wifi` fails with `invalid_pairing_code` and performs no transport
call at all. -/
theorem pairing_code_ascii_rejection (ip code : String) (pp cp : Int)
    (tr : PairTransport) (cres : Bool × String)
    (hip : matchesIpPattern ip.data = true)
    (hpp1 : 1 ≤ pp) (hpp2 : pp ≤ 65535)
    (hcp1 : 1 ≤ cp) (hcp2 : cp ≤ 65535)
    (hascii : ∀ c ∈ code.data, c.toNat < 128)
    (hbad : ¬(code.data.all isAsciiDigit = true ∧ code.length = 6)) :
    pair_wifi ip pp cp code tr cres =
      (⟨false, "Pairing code must be 6 digits", none, none,
        some "invalid_pairing_code"⟩, []) := by
  have hcond : (!(pyStrIsdigit code.data) || decide (code.length ≠ 6)) = true := by
    rw [pyStrIsdigit_ascii code.data hascii]
    rcases hall : code.data.all isAsciiDigit with _ | _
    · simp [hall]
    · have : ¬ code.length = 6 := fun h => hbad ⟨hall, h⟩
      simp [this]
  simp only [pair_wifi, hip, hpp1, hpp2, hcp1, hcp2]
  simp [hcond, hpp1, hpp2, hcp1, hcp2]
  intro h1 h2
  rw [h1, h2] at hcond
  simp at hcond

/-- Witness for the amended C6: the 5-digit code "19787" from the spec
example is rejected with `invalid_pairing_code` and no transport call. -/
theorem pairing_code_ascii_rejection_witness :
    pair_wifi "192.168.1.100" 37831 5555 "19787"
      (.completed "x" "") (true, "") =
      (⟨false, "Pairing code must be 6 digits", none, none,
        some "invalid_pairing_code"⟩, []) :=
  pairing_code_ascii_rejection "192.168.1.100" "19787" 37831 5555
    (.completed "x" "") (true, "") (by decide) (by decide) (by decide)
    (by decide) (by decide) (by decide) (by decide)

/-- C7 counterexample: "999.1.1.1" matches the IP syntax regex (octet
values are not range-checked), so `connect_wifi_manual("999.1.1.1", 5555)`
is not rejected as invalid input: it performs the connect transport call
and reports `connect_failed` when that call fails. -/
theorem manual_connect_ip_999_not_rejected :
    matchesIpPattern "999.1.1.1".data = true ∧
    (connect_wifi_manual "999.1.1.1" 5555 (false, "refused")).2 =
      [AdbCall.connectCmd "999.1.1.1:5555"] ∧
    (connect_wifi_manual "999.1.1.1" 5555 (false, "refused")).1.error =
      some "connect_failed" := by decide

/-- C7 (amended): `connect_wifi_manual` validates the IP against the
syntax regex and the port against the range 1-65535 before any connection
attempt, and a request failing either check is rejected with no transport
call. -/
theorem manual_connect_validation (ip : String) (port : Int)
    (cres : Bool × String) :
    (matchesIpPattern ip.data = false →
      connect_wifi_manual ip port cres =
        (⟨false, "Invalid IP address format", none, none, some "invalid_ip"⟩,
          [])) ∧
    (matchesIpPattern ip.data = true → ¬(1 ≤ port ∧ port ≤ 65535) →
      connect_wifi_manual ip port cres =
        (⟨false, "Port must be between 1 and 65535", none, none,
          some "invalid_port"⟩, [])) := by
  constructor
  · intro h
    simp [connect_wifi_manual, h]
  · intro h hp
    rcases Decidable.not_and_iff_or_not.mp hp with hp1 | hp2
    · simp [connect_wifi_manual, h, hp1]
    · simp [connect_wifi_manual, h, hp2]

/-- Witness for the amended C7: a malformed IP and an out-of-range port
are both rejected without any transport call. -/
theorem manual_connect_validation_witness :
    connect_wifi_manual "1.2.3" 5555 (false, "") =
      (⟨false, "Invalid IP address format", none, none, some "invalid_ip"⟩,
        []) ∧
    connect_wifi_manual "1.2.3.4" 0 (false, "") =
      (⟨false, "Port must be between 1 and 65535", none, none,
        some "invalid_port"⟩, []) :=
  ⟨(manual_connect_validation "1.2.3" 5555 (false, "")).1 (by decide),
    (manual_connect_validation "1.2.3.4" 0 (false, "")).2 (by decide)
      (by decide)⟩

/-- C8: `connect_wifi` performs, in order, device-info lookup (failing
with `device_not_found`), an idempotent success with the existing address
when the device is already on WiFi (no further transport calls), then
tcpip enabling, then IP discovery with the WiFi-preferring lookup first
and the general lookup only as fallback, then the connect to `ip:port`;
each step failure short-circuits with the error code of that step. -/
theorem connect_wifi_step_sequence (did : Option String) (port : Int)
    (env : ConnectWifiEnv) :
    (env.device_info = none →
      connect_wifi did port env =
        (⟨false, "No connected device found", none, none,
          some "device_not_found"⟩, [AdbCall.getDeviceInfoCmd])) ∧
    (∀ info, env.device_info = some info →
      info.connection_type = ConnectionType.remote →
      connect_wifi did port env =
        (⟨true, "Already connected over WiFi", some info.device_id,
          some info.device_id, none⟩, [AdbCall.getDeviceInfoCmd])) ∧
    (∀ info, env.device_info = some info →
      info.connection_type = ConnectionType.usb →
      env.tcpip.1 = false →
      (connect_wifi did port env).1.success = false ∧
      (connect_wifi did port env).1.error = some "tcpip" ∧
      (connect_wifi did port env).2 =
        [AdbCall.getDeviceInfoCmd, AdbCall.enableTcpipCmd port info.device_id]) ∧
    (∀ info, env.device_info = some info →
      info.connection_type = ConnectionType.usb →
      env.tcpip.1 = true → pyTruthyStr env.wifi_ip = true →
      AdbCall.getDeviceIpCmd info.device_id ∉ (connect_wifi did port env).2) ∧
    (∀ info, env.device_info = some info →
      info.connection_type = ConnectionType.usb →
      env.tcpip.1 = true → pyTruthyStr env.wifi_ip = false →
      pyTruthyStr env.general_ip = false →
      (connect_wifi did port env).1.success = false ∧
      (connect_wifi did port env).1.error = some "ip" ∧
      (connect_wifi did port env).2 =
        [AdbCall.getDeviceInfoCmd, AdbCall.enableTcpipCmd port info.device_id,
          AdbCall.getWifiIpCmd info.device_id,
          AdbCall.getDeviceIpCmd info.device_id]) ∧
    (∀ info, env.device_info = some info →
      info.connection_type = ConnectionType.usb →
      env.tcpip.1 = true →
      pyTruthyStr (if pyTruthyStr env.wifi_ip then env.wifi_ip
        else env.general_ip) = true →
      env.connectRes.1 = false →
      (connect_wifi did port env).1.success = false ∧
      (connect_wifi did port env).1.error = some "connect" ∧
      AdbCall.connectCmd
          ((if pyTruthyStr env.wifi_ip then env.wifi_ip
            else env.general_ip).getD "" ++ ":" ++ toString port) ∈
        (connect_wifi did port env).2) ∧
    (∀ info, env.device_info = some info →
      info.connection_type = ConnectionType.usb →
      env.tcpip.1 = true →
      pyTruthyStr (if pyTruthyStr env.wifi_ip then env.wifi_ip
        else env.general_ip) = true →
      env.connectRes.1 = true →
      (connect_wifi did port env).1.success = true ∧
      (connect_wifi did port env).1.address =
        some ((if pyTruthyStr env.wifi_ip then env.wifi_ip
          else env.general_ip).getD "" ++ ":" ++ toString port) ∧
      AdbCall.connectCmd
          ((if pyTruthyStr env.wifi_ip then env.wifi_ip
            else env.general_ip).getD "" ++ ":" ++ toString port) ∈
        (connect_wifi did port env).2) := by
  refine ⟨?_, ?_, ?_, ?_, ?_, ?_, ?_⟩
  · intro h
    simp [connect_wifi, h]
  · intro info h hr
    simp [connect_wifi, h, hr]
  · intro info h hu ht
    simp [connect_wifi, h, hu, ht]
  · intro info h hu ht hw
    simp [connect_wifi, h, hu, ht, hw]
    split_ifs <;> simp
  · intro info h hu ht hw hg
    simp [connect_wifi, h, hu, ht, hw, hg]
  · intro info h hu ht hip hc
    simp [connect_wifi, h, hu, ht, hip, hc]
  · intro info h hu ht hip hc
    simp [connect_wifi, h, hu, ht, hip, hc]

/-- Witness for C8: a USB device with a WiFi-preferring IP lookup result
and successful tcpip and connect steps switches to WiFi at 10.0.0.2:5555. -/
theorem connect_wifi_step_sequence_witness :
    (connect_wifi none 5555 ⟨some ⟨"SER", ConnectionType.usb⟩, (true, ""),
      some "10.0.0.2", none, (true, "")⟩).1.success = true ∧
    (connect_wifi none 5555 ⟨some ⟨"SER", ConnectionType.usb⟩, (true, ""),
      some "10.0.0.2", none, (true, "")⟩).1.address = some "10.0.0.2:5555" := by
  have h := (connect_wifi_step_sequence none 5555
    ⟨some ⟨"SER", ConnectionType.usb⟩, (true, ""), some "10.0.0.2", none,
      (true, "")⟩).2.2.2.2.2.2 ⟨"SER", ConnectionType.usb⟩ rfl rfl rfl
    (by decide) rfl
  exact ⟨h.1, by simpa using h.2.1⟩

/-- C9: with a valid pairing code, `pair_device` classifies the combined
stdout+stderr text of the pair command: success exactly when the text
contains "Successfully paired" or contains "success" case-insensitively;
the invalid-code and connection-refused classifications are produced only
under a case-insensitive "failed"; any other text yields the generic
failure with the stripped text (or a default when it strips to nothing). -/
theorem pair_output_classification (ip : String) (port : Int)
    (code out errS : String)
    (hdig : pyStrIsdigit code.data = true) (hlen : code.length = 6) :
    ((pair_device ip port code (.completed out errS)).1.1 = true ↔
      (csub "Successfully paired".data (out ++ errS).data = true ∨
        csub "success".data (lowerStr (out ++ errS).data) = true)) ∧
    ((csub "Successfully paired".data (out ++ errS).data = true ∨
        csub "success".data (lowerStr (out ++ errS).data) = true) →
      (pair_device ip port code (.completed out errS)).1 =
        (true, "Successfully paired to " ++ (ip ++ ":" ++ toString port))) ∧
    (csub "Successfully paired".data (out ++ errS).data = false →
      csub "success".data (lowerStr (out ++ errS).data) = false →
      csub "failed".data (lowerStr (out ++ errS).data) = true →
      csub "pairing code".data (lowerStr (out ++ errS).data) = true →
      (pair_device ip port code (.completed out errS)).1 =
        (false, "Invalid pairing code")) ∧
    (csub "Successfully paired".data (out ++ errS).data = false →
      csub "success".data (lowerStr (out ++ errS).data) = false →
      csub "failed".data (lowerStr (out ++ errS).data) = true →
      csub "pairing code".data (lowerStr (out ++ errS).data) = false →
      csub "refused".data (lowerStr (out ++ errS).data) = true →
      (pair_device ip port code (.completed out errS)).1 =
        (false, "Connection refused - check if wireless debugging is enabled")) ∧
    (csub "Successfully paired".data (out ++ errS).data = false →
      csub "success".data (lowerStr (out ++ errS).data) = false →
      csub "failed".data (lowerStr (out ++ errS).data) = true →
      csub "pairing code".data (lowerStr (out ++ errS).data) = false →
      csub "refused".data (lowerStr (out ++ errS).data) = false →
      (pair_device ip port code (.completed out errS)).1 =
        (false, "Pairing failed: " ++ String.mk (pyStrip (out ++ errS).data))) ∧
    (csub "Successfully paired".data (out ++ errS).data = false →
      csub "success".data (lowerStr (out ++ errS).data) = false →
      csub "failed".data (lowerStr (out ++ errS).data) = false →
      (pair_device ip port code (.completed out errS)).1 =
        (false, if pyStrip (out ++ errS).data ≠ [] then
            String.mk (pyStrip (out ++ errS).data)
          else "Unknown pairing error")) := by
  have hv : (!(pyStrIsdigit code.data) || decide (code.length ≠ 6)) = false := by
    simp [hdig, hlen]
  rcases hA : csub "Successfully paired".data (out ++ errS).data <;>
    rcases hB : csub "success".data (lowerStr (out ++ errS).data) <;>
    rcases hC : csub "failed".data (lowerStr (out ++ errS).data) <;>
    rcases hD : csub "pairing code".data (lowerStr (out ++ errS).data) <;>
    rcases hE : csub "refused".data (lowerStr (out ++ errS).data) <;>
    simp_all [pair_device, classifyPairOutput]

/-- Witness for C9: the output "unsuccessful" contains "success" as a
substring and is therefore classified as a pairing success. -/
theorem pair_output_classification_witness :
    (pair_device "192.168.1.100" 37831 "197872"
      (.completed "unsuccessful" "")).1.1 = true ∧
    csub "failed".data (lowerStr ("unsuccessful" : String).data) = false :=
  ⟨(pair_output_classification "192.168.1.100" 37831 "197872" "unsuccessful" ""
      (by decide) (by decide)).1.mpr (Or.inr (by decide)),
    by decide⟩

lemma nalTypeOf_nonneg_length (u : List Nat) (t : Int) (h : nalTypeOf u = t)
    (ht : 0 ≤ t) : 4 < u.length := by
  unfold nalTypeOf at h
  split at h
  · assumption
  · omega

lemma nalTypeOf_ne_nil (u : List Nat) (t : Int) (h : nalTypeOf u = t)
    (ht : 0 ≤ t) : u ≠ [] := by
  intro he
  have hlen := nalTypeOf_nonneg_length u t h ht
  simp [he] at hlen

lemma cacheUnit_wf (s : ScrcpyStreamer) (u : List Nat) (h : wfStreamer s) :
    wfStreamer (cacheUnit s u) := by
  obtain ⟨h1, h2, h3⟩ := h
  simp only [cacheUnit]
  split_ifs with c1 c2 c3 <;>
    refine ⟨?_, ?_, ?_⟩ <;>
    simp only [wfCache] <;>
    intro v hv <;>
    first
    | (injection hv with hv2; subst hv2; tauto)
    | exact h1 v hv
    | exact h2 v hv
    | exact h3 v hv

lemma mkStreamer_wf (dev : String) : wfStreamer (mkStreamer dev) := by
  refine ⟨?_, ?_, ?_⟩ <;> intro u hu <;> simp [mkStreamer] at hu

lemma initLoop_wf (reads : Nat → ReadResult) :
    ∀ fuel i s, wfStreamer s → wfStreamer (initLoop reads fuel i s).1 := by
  intro fuel
  induction fuel with
  | zero => intro i s h; simpa [initLoop] using h
  | succ n ih =>
    intro i s h
    rw [initLoop]
    rcases hri : reads i with u | m <;> simp only [hri]
    · split_ifs with hc
      · exact cacheUnit_wf s u h
      · exact ih (i + 1) (cacheUnit s u) (cacheUnit_wf s u h)
    · exact ih (i + 1) s h

lemma initLoop_evs_replicate (reads : Nat → ReadResult) :
    ∀ fuel i s, ∃ k, k ≤ fuel ∧
      (initLoop reads fuel i s).2 = List.replicate k Ev.sleepHalfSec := by
  intro fuel
  induction fuel with
  | zero => intro i s; exact ⟨0, le_refl 0, by simp [initLoop]⟩
  | succ n ih =>
    intro i s
    rw [initLoop]
    rcases hri : reads i with u | m <;> simp only [hri]
    · split_ifs with hc
      · exact ⟨0, by omega, rfl⟩
      · obtain ⟨k, hk, he⟩ := ih (i + 1) (cacheUnit s u)
        exact ⟨k, by omega, he⟩
    · obtain ⟨k, hk, he⟩ := ih (i + 1) s
      exact ⟨k + 1, by omega, by simp [he, List.replicate_succ]⟩

lemma forwardLoop_evs_eq (en : StreamEnd) :
    ∀ (fr : List (List Nat)) (s : ScrcpyStreamer),
      (forwardLoop s fr en).2.1 = fr.map Ev.sendBytes ++ endEvs en := by
  intro fr
  induction fr with
  | nil =>
    intro s
    rcases en with ⟨m, w⟩ | _ | ⟨m, w⟩
    · rcases w <;> simp [forwardLoop, endEvs]
    · simp [forwardLoop, endEvs]
    · rcases w <;> simp [forwardLoop, endEvs]
  | cons u rest ih =>
    intro s
    rw [forwardLoop]
    simp [ih (cacheUnit s u)]

lemma forwardLoop_failed (en : StreamEnd) :
    ∀ (fr : List (List Nat)) (s : ScrcpyStreamer),
      (forwardLoop s fr en).2.2 = endFailed en := by
  intro fr
  induction fr with
  | nil =>
    intro s
    rcases en with ⟨m, w⟩ | _ | ⟨m, w⟩ <;> simp [forwardLoop, endFailed]
  | cons u rest ih =>
    intro s
    rw [forwardLoop]
    exact ih (cacheUnit s u)

lemma forwardLoop_wf (en : StreamEnd) :
    ∀ (fr : List (List Nat)) (s : ScrcpyStreamer), wfStreamer s →
      wfStreamer (forwardLoop s fr en).1 := by
  intro fr
  induction fr with
  | nil =>
    intro s h
    rcases en with ⟨m, w⟩ | _ | ⟨m, w⟩ <;> simpa [forwardLoop] using h
  | cons u rest ih =>
    intro s h
    rw [forwardLoop]
    exact ih (cacheUnit s u) (cacheUnit_wf s u h)

lemma lookupS_setS_self (l : List (String × ScrcpyStreamer)) (d : String)
    (v : ScrcpyStreamer) : lookupS (setS l d v) d = some v := by
  induction l with
  | nil => simp [setS, lookupS]
  | cons p rest ih =>
    obtain ⟨k, w⟩ := p
    by_cases h : k = d <;> simp [setS, lookupS, h, ih]

lemma lookupS_removeS_self (l : List (String × ScrcpyStreamer)) (d : String) :
    lookupS (removeS l d) d = none := by
  induction l with
  | nil => simp [removeS, lookupS]
  | cons p rest ih =>
    obtain ⟨k, w⟩ := p
    by_cases h : k = d <;> simp [removeS, lookupS, h, ih]

lemma lookupS_mem (l : List (String × ScrcpyStreamer)) (d : String)
    (s : ScrcpyStreamer) (h : lookupS l d = some s) : (d, s) ∈ l := by
  induction l with
  | nil => simp [lookupS] at h
  | cons p rest ih =>
    obtain ⟨k, w⟩ := p
    by_cases hk : k = d
    · subst hk
      simp only [lookupS, if_true] at h
      injection h with h2
      subst h2
      exact List.mem_cons_self _ _
    · simp only [lookupS, hk, if_false] at h
      exact List.mem_cons_of_mem _ (ih h)

lemma setS_keys_mem (l : List (String × ScrcpyStreamer)) (d k : String)
    (v : ScrcpyStreamer) (h : k ∈ (setS l d v).map Prod.fst) :
    k = d ∨ k ∈ l.map Prod.fst := by
  induction l with
  | nil =>
    simp only [setS, List.map_cons, List.map_nil, List.mem_singleton] at h
    exact Or.inl h
  | cons p rest ih =>
    obtain ⟨k2, w⟩ := p
    by_cases hk : k2 = d
    · subst hk
      simp only [setS, if_true, List.map_cons, List.mem_cons] at h ⊢
      tauto
    · simp only [setS, hk, if_false, List.map_cons, List.mem_cons] at h ⊢
      rcases h with h | h
      · tauto
      · rcases ih h with h2 | h2 <;> tauto

lemma setS_keys_nodup (l : List (String × ScrcpyStreamer)) (d : String)
    (v : ScrcpyStreamer) (h : (l.map Prod.fst).Nodup) :
    ((setS l d v).map Prod.fst).Nodup := by
  induction l with
  | nil => simp [setS]
  | cons p rest ih =>
    obtain ⟨k, w⟩ := p
    simp only [List.map_cons, List.nodup_cons] at h
    by_cases hk : k = d
    · subst hk
      simpa [setS] using h
    · simp only [setS, hk, if_false, List.map_cons, List.nodup_cons]
      refine ⟨?_, ih h.2⟩
      intro hmem
      rcases setS_keys_mem rest d k v hmem with h2 | h2
      · exact hk h2
      · exact h.1 h2

lemma removeS_keys_mem (l : List (String × ScrcpyStreamer)) (d k : String)
    (h : k ∈ (removeS l d).map Prod.fst) : k ∈ l.map Prod.fst := by
  induction l with
  | nil => simpa [removeS] using h
  | cons p rest ih =>
    obtain ⟨k2, w⟩ := p
    by_cases hk : k2 = d
    · subst hk
      simp only [removeS, if_true] at h
      simp only [List.map_cons, List.mem_cons]
      exact Or.inr (ih h)
    · simp only [removeS, hk, if_false, List.map_cons, List.mem_cons] at h ⊢
      rcases h with h | h
      · exact Or.inl h
      · exact Or.inr (ih h)

lemma removeS_keys_nodup (l : List (String × ScrcpyStreamer)) (d : String)
    (h : (l.map Prod.fst).Nodup) : ((removeS l d).map Prod.fst).Nodup := by
  induction l with
  | nil => simp [removeS]
  | cons p rest ih =>
    obtain ⟨k, w⟩ := p
    simp only [List.map_cons, List.nodup_cons] at h
    by_cases hk : k = d
    · subst hk
      simp only [removeS, if_true]
      exact ih h.2
    · simp only [removeS, hk, if_false, List.map_cons, List.nodup_cons]
      exact ⟨fun hm => h.1 (removeS_keys_mem rest d k hm), ih h.2⟩

lemma firstBytes_append_of_no_sends (l r : List Ev)
    (h : ∀ b, Ev.sendBytes b ∉ l) : firstBytes (l ++ r) = firstBytes r := by
  induction l with
  | nil => rfl
  | cons e rest ih =>
    have hrest : ∀ b, Ev.sendBytes b ∉ rest := fun b hb =>
      h b (List.mem_cons_of_mem _ hb)
    rcases e <;>
      first
      | (exfalso; exact h _ (List.mem_cons_self _ _))
      | simpa [firstBytes] using ih hrest

lemma pyTruthy_some (o : Option (List Nat)) (h : pyTruthy o = true) :
    ∃ b, o = some b ∧ b ≠ [] := by
  rcases o with _ | b
  · simp [pyTruthy] at h
  · refine ⟨b, rfl, ?_⟩
    simpa [pyTruthy] using h

/-- Characterization of a successful first attach. -/
lemma firstAttach_some (dev : String) (env : StreamEnv)
    (s1 : ScrcpyStreamer) (evs : List Ev)
    (h : firstAttach dev env = (some s1, evs)) :
    env.startRes = none ∧ env.sendInitRes = none ∧
    s1 = (initLoop env.reads 20 0 (mkStreamer dev)).1 ∧
    ∃ b, get_initialization_data s1 = some b ∧ b ≠ [] ∧
      evs = [Ev.createStreamer dev, Ev.startCapture dev] ++
        (initLoop env.reads 20 0 (mkStreamer dev)).2 ++ [Ev.sendBytes b] := by
  unfold firstAttach at h
  rcases hsr : env.startRes with _ | m
  · rw [hsr] at h
    dsimp only at h
    by_cases hpt : pyTruthy (get_initialization_data
        (initLoop env.reads 20 0 (mkStreamer dev)).1) = true
    · rw [if_pos hpt] at h
      rcases hsi : env.sendInitRes with _ | m2
      · rw [hsi] at h
        injection h with h1 h2
        injection h1 with h1
        obtain ⟨b, hb, hbne⟩ := pyTruthy_some _ hpt
        refine ⟨rfl, rfl, h1.symm, b, by rw [← h1]; exact hb, hbne, ?_⟩
        rw [← h2]
        simp [hb]
      · rw [hsi] at h
        injection h with h1 h2
        simp at h1
    · rw [if_neg (by simpa using hpt)] at h
      injection h with h1 h2
      simp at h1
  · rw [hsr] at h
    injection h with h1 h2
    simp at h1

/-- A failed first attach sends no binary frame. -/
lemma firstAttach_none_no_sends (dev : String) (env : StreamEnv)
    (evs : List Ev) (h : firstAttach dev env = (none, evs)) :
    ∀ b, Ev.sendBytes b ∉ evs := by
  obtain ⟨k, hk, hrep⟩ := initLoop_evs_replicate env.reads 20 0 (mkStreamer dev)
  unfold firstAttach at h
  rcases hsr : env.startRes with _ | m
  · rw [hsr] at h
    dsimp only at h
    by_cases hpt : pyTruthy (get_initialization_data
        (initLoop env.reads 20 0 (mkStreamer dev)).1) = true
    · rw [if_pos hpt] at h
      rcases hsi : env.sendInitRes with _ | m2
      · rw [hsi] at h
        injection h with h1 h2
        simp at h1
      · rw [hsi] at h
        injection h with h1 h2
        subst h2
        intro b
        rw [hrep]
        split_ifs <;> simp [List.mem_replicate]
    · rw [if_neg (by simpa using hpt)] at h
      injection h with h1 h2
      subst h2
      intro b
      rw [hrep]
      split_ifs <;> simp [List.mem_replicate]
  · rw [hsr] at h
    injection h with h1 h2
    subst h2
    intro b
    split_ifs <;> simp


lemma all_replicate (k : Nat) (a : Ev) (p : Ev → Bool) (h : p a = true) :
    (List.replicate k a).all p = true := by
  induction k with
  | zero => rfl
  | succ n ih => simp [List.replicate_succ, h, ih]

lemma firstAttach_all (dev : String) (env : StreamEnv) (p : Ev → Bool)
    (hc : p (Ev.createStreamer dev) = true)
    (hs : p (Ev.startCapture dev) = true)
    (hst : p (Ev.stopStreamer dev) = true)
    (hr : p (Ev.removeStreamer dev) = true)
    (hsl : p Ev.sleepHalfSec = true)
    (hb : ∀ b, p (Ev.sendBytes b) = true)
    (hj : ∀ m, p (Ev.sendJsonError m) = true) :
    (firstAttach dev env).2.all p = true := by
  obtain ⟨k, hk, hrep⟩ := initLoop_evs_replicate env.reads 20 0 (mkStreamer dev)
  unfold firstAttach
  rcases hsr : env.startRes with _ | m <;> dsimp only
  · by_cases hpt : pyTruthy (get_initialization_data
        (initLoop env.reads 20 0 (mkStreamer dev)).1) = true
    · rw [if_pos hpt]
      rcases hsi : env.sendInitRes with _ | m2 <;> dsimp only <;>
        rw [hrep] <;>
        (try split_ifs) <;>
        simp [List.all_append, all_replicate k _ p hsl, hc, hs, hst, hr, hb, hj]
    · rw [if_neg (by simpa using hpt)]
      rw [hrep]
      split_ifs <;>
        simp [List.all_append, all_replicate k _ p hsl, hc, hs, hst, hr, hj]
  · split_ifs <;> simp [hc, hs, hst, hr, hj]

lemma reuseAttach_all (dev : String) (s : ScrcpyStreamer) (env : StreamEnv)
    (p : Ev → Bool)
    (hsl : p Ev.sleepHalfSec = true)
    (hb : ∀ b, p (Ev.sendBytes b) = true)
    (hj : ∀ m, p (Ev.sendJsonError m) = true) :
    (reuseAttach dev s env).2.all p = true := by
  unfold reuseAttach
  by_cases hpt : pyTruthy (get_initialization_data s) = true
  · rw [if_pos hpt]
    simp [hb]
  · rw [if_neg (by simpa using hpt)]
    split_ifs <;> simp [List.all_append, all_replicate 10 _ p hsl, hsl, hj]

lemma firstAttach_creates (dev : String) (env : StreamEnv) :
    Ev.createStreamer dev ∈ (firstAttach dev env).2 := by
  unfold firstAttach
  rcases hsr : env.startRes with _ | m <;> dsimp only
  · 
    by_cases hpt : pyTruthy (get_initialization_data
        (initLoop env.reads 20 0 (mkStreamer dev)).1) = true
    · rw [if_pos hpt]
      rcases hsi : env.sendInitRes with _ | m2 <;> simp
    · rw [if_neg (by simpa using hpt)]
      simp
  · simp

lemma get_initialization_data_eq (s : ScrcpyStreamer) (b : List Nat)
    (h : get_initialization_data s = some b) :
    ∃ sps pps idr, s.cached_sps = some sps ∧ s.cached_pps = some pps ∧
      s.cached_idr = some idr ∧ b = sps ++ pps ++ idr := by
  unfold get_initialization_data at h
  rcases h1 : s.cached_sps with _ | sps <;> rw [h1] at h
  · simp at h
  · rcases h2 : s.cached_pps with _ | pps <;> rw [h2] at h
    · simp at h
    · rcases h3 : s.cached_idr with _ | idr <;> rw [h3] at h
      · simp at h
      · injection h with h4
        exact ⟨sps, pps, idr, rfl, rfl, rfl, h4.symm⟩

lemma firstBytes_none_of_no_sends (l : List Ev)
    (h : ∀ b, Ev.sendBytes b ∉ l) : firstBytes l = none := by
  have h2 := firstBytes_append_of_no_sends l [] h
  simpa using h2

/-- In a well-formed session, a produced bootstrap blob decomposes as the
cached SPS, PPS and first IDR, in that order, with the right NAL types
and all three components non-empty. -/
lemma wf_blob_parts (s : ScrcpyStreamer) (b : List Nat) (h : wfStreamer s)
    (hb : get_initialization_data s = some b) :
    ∃ sps pps idr, s.cached_sps = some sps ∧ s.cached_pps = some pps ∧
      s.cached_idr = some idr ∧ nalTypeOf sps = 7 ∧ nalTypeOf pps = 8 ∧
      nalTypeOf idr = 5 ∧ sps ≠ [] ∧ pps ≠ [] ∧ idr ≠ [] ∧
      b = sps ++ pps ++ idr := by
  obtain ⟨sps, pps, idr, hc1, hc2, hc3, hcat⟩ :=
    get_initialization_data_eq s b hb
  have ht7 := h.1 sps hc1
  have ht8 := h.2.1 pps hc2
  have ht5 := h.2.2 idr hc3
  exact ⟨sps, pps, idr, hc1, hc2, hc3, ht7, ht8, ht5,
    nalTypeOf_ne_nil sps 7 ht7 (by norm_num),
    nalTypeOf_ne_nil pps 8 ht8 (by norm_num),
    nalTypeOf_ne_nil idr 5 ht5 (by norm_num), hcat⟩


/-- C10: a stream request without a device id is accepted and answered
with exactly one text frame, the JSON error object saying the device id is
required; no binary frame is sent and both registry maps are unchanged. -/
theorem missing_device_id_rejected (st : MediaState) (env : StreamEnv) :
    video_stream_ws st none env =
      (st, [Ev.acceptWs, Ev.sendJsonError "device_id is required"]) ∧
    (∀ b, Ev.sendBytes b ∉ (video_stream_ws st none env).2) ∧
    (video_stream_ws st none env).1.streamers = st.streamers ∧
    (video_stream_ws st none env).1.locks = st.locks := by
  refine ⟨rfl, ?_, rfl, rfl⟩
  intro b hb
  simp [video_stream_ws] at hb

/-- C4: during the forward loop of a reused, initialized session, a
mid-stream connection error stops and removes the session (the error is
reported to the viewer when still writable, and any subsequent attach for
the device creates a fresh streamer), whereas an ordinary viewer
disconnect leaves the session registered with no stop or removal. -/
theorem transport_error_vs_disconnect (st : MediaState) (dev : String) (env : StreamEnv)
    (s : ScrcpyStreamer)
    (hlk : lookupS st.streamers dev = some s)
    (hpt : pyTruthy (get_initialization_data s) = true) :
    (∀ m w, env.ending = StreamEnd.connError m w →
      lookupS (video_stream_ws st (some dev) env).1.streamers dev = none ∧
      Ev.stopStreamer dev ∈ (video_stream_ws st (some dev) env).2 ∧
      Ev.removeStreamer dev ∈ (video_stream_ws st (some dev) env).2 ∧
      (w = true → Ev.sendJsonError ("Stream error: " ++ m) ∈
        (video_stream_ws st (some dev) env).2) ∧
      (∀ env2, Ev.createStreamer dev ∈
        (video_stream_ws (video_stream_ws st (some dev) env).1 (some dev)
          env2).2)) ∧
    (env.ending = StreamEnd.disconnect →
      (∃ s2, lookupS (video_stream_ws st (some dev) env).1.streamers dev =
        some s2) ∧
      (∀ d2, Ev.stopStreamer d2 ∉ (video_stream_ws st (some dev) env).2) ∧
      (∀ d2, Ev.removeStreamer d2 ∉ (video_stream_ws st (some dev) env).2)) := by
  have hra : reuseAttach dev s env =
      (true, [Ev.sendBytes ((get_initialization_data s).getD [])]) := by
    unfold reuseAttach
    rw [if_pos hpt]
  constructor
  · intro m w hend
    have hff : (forwardLoop s env.frames env.ending).2.2 = true := by
      rw [forwardLoop_failed, hend]
      rfl
    have hfe : (forwardLoop s env.frames env.ending).2.1 =
        env.frames.map Ev.sendBytes ++ endEvs env.ending :=
      forwardLoop_evs_eq env.ending env.frames s
    simp only [video_stream_ws, hlk, hra, hff, if_true, hfe]
    refine ⟨lookupS_removeS_self st.streamers dev, ?_, ?_, ?_, ?_⟩
    · simp
    · simp
    · intro hw
      subst hw
      rw [hend]
      simp [endEvs]
    · intro env2
      simp only [video_stream_ws, lookupS_removeS_self]
      rcases hfa : firstAttach dev env2 with ⟨os, evs2⟩
      have hcr : Ev.createStreamer dev ∈ evs2 := by
        have h2 := firstAttach_creates dev env2
        rw [hfa] at h2
        exact h2
      rcases os with _ | s1 <;> simp [hcr] <;> split_ifs <;> simp [hcr]
  · intro hend
    have hff : (forwardLoop s env.frames env.ending).2.2 = false := by
      rw [forwardLoop_failed, hend]
      rfl
    have hfe : (forwardLoop s env.frames env.ending).2.1 =
        env.frames.map Ev.sendBytes ++ endEvs env.ending :=
      forwardLoop_evs_eq env.ending env.frames s
    simp only [video_stream_ws, hlk, hra, hff, if_false, hfe]
    refine ⟨⟨_, lookupS_setS_self st.streamers dev _⟩, ?_, ?_⟩ <;>
      intro d2 hmem <;>
      rw [hend] at hmem <;>
      simp [endEvs, List.mem_append] at hmem


/-- C3: on a first attach whose bounded init loop (20 read attempts, with
a 0.5 s sleep counted per failed read, at most 20 sleeps) does not yield a
complete SPS/PPS/IDR set, no binary frame is ever sent, the failure is
reported to the viewer when writable, the streamer is stopped, and no
session remains registered for the device. -/
theorem init_timeout_teardown (st : MediaState) (dev : String) (env : StreamEnv)
    (habs : lookupS st.streamers dev = none)
    (hstart : env.startRes = none)
    (hfail : pyTruthy (get_initialization_data
      (initLoop env.reads 20 0 (mkStreamer dev)).1) = false) :
    (∀ b, Ev.sendBytes b ∉ (video_stream_ws st (some dev) env).2) ∧
    (env.initErrWritable = true →
      Ev.sendJsonError "Failed to get initialization data (missing SPS/PPS/IDR)"
        ∈ (video_stream_ws st (some dev) env).2) ∧
    Ev.stopStreamer dev ∈ (video_stream_ws st (some dev) env).2 ∧
    lookupS (video_stream_ws st (some dev) env).1.streamers dev = none ∧
    (video_stream_ws st (some dev) env).2.count Ev.sleepHalfSec ≤ 20 := by
  obtain ⟨k, hk, hrep⟩ := initLoop_evs_replicate env.reads 20 0 (mkStreamer dev)
  have hfa : firstAttach dev env = (none,
      [Ev.createStreamer dev, Ev.startCapture dev] ++
        List.replicate k Ev.sleepHalfSec ++
        [Ev.stopStreamer dev, Ev.removeStreamer dev] ++
        (if env.initErrWritable = true then
          [Ev.sendJsonError
            "Failed to get initialization data (missing SPS/PPS/IDR)"]
         else [])) := by
    unfold firstAttach
    rw [hstart]
    dsimp only
    rw [if_neg (by simp [hfail]), hrep]
  simp only [video_stream_ws, habs, hfa]
  refine ⟨?_, ?_, ?_, lookupS_removeS_self _ dev, ?_⟩
  · intro b hb
    revert hb
    split_ifs <;> intro hb <;> simp [List.mem_replicate] at hb
  · intro hw
    simp [hw]
  · simp
  · split_ifs <;>
      simp [List.count_cons, List.count_append, List.count_replicate] <;>
      omega


lemma no_sends_replicate (k : Nat) :
    ∀ b, Ev.sendBytes b ∉ List.replicate k Ev.sleepHalfSec := by
  simp [List.mem_replicate]

/-- C2: the first binary frame a viewer ever receives is exactly the
bootstrap blob of the attach-time Capture Session: for a first attach it
equals `get_initialization_data` of the session state produced by the init
loop from a fresh streamer, and for a reuse attach it equals
`get_initialization_data` of the registered session as it was at attach
time, independent of the live-stream frames; in both cases the blob
decomposes as the cached SPS ++ PPS ++ IDR with the right NAL types
(7, 8, 5) and all three components non-empty, so a partial blob is never
sent. -/
theorem bootstrap_blob_first_frame (st : MediaState) (dev : String) (env : StreamEnv)
    (hwf : ∀ p ∈ st.streamers, wfStreamer p.2) :
    (lookupS st.streamers dev = none →
      ∀ b, firstBytes (video_stream_ws st (some dev) env).2 = some b →
        get_initialization_data
            (initLoop env.reads 20 0 (mkStreamer dev)).1 = some b ∧
        ∃ sps pps idr,
          (initLoop env.reads 20 0 (mkStreamer dev)).1.cached_sps = some sps ∧
          (initLoop env.reads 20 0 (mkStreamer dev)).1.cached_pps = some pps ∧
          (initLoop env.reads 20 0 (mkStreamer dev)).1.cached_idr = some idr ∧
          nalTypeOf sps = 7 ∧ nalTypeOf pps = 8 ∧ nalTypeOf idr = 5 ∧
          sps ≠ [] ∧ pps ≠ [] ∧ idr ≠ [] ∧ b = sps ++ pps ++ idr) ∧
    (∀ s, lookupS st.streamers dev = some s →
      ∀ b, firstBytes (video_stream_ws st (some dev) env).2 = some b →
        get_initialization_data s = some b ∧
        ∃ sps pps idr, s.cached_sps = some sps ∧ s.cached_pps = some pps ∧
          s.cached_idr = some idr ∧ nalTypeOf sps = 7 ∧ nalTypeOf pps = 8 ∧
          nalTypeOf idr = 5 ∧ sps ≠ [] ∧ pps ≠ [] ∧ idr ≠ [] ∧
          b = sps ++ pps ++ idr) := by
  rcases hlk : lookupS st.streamers dev with _ | s
  · obtain ⟨k, hk, hrep⟩ := initLoop_evs_replicate env.reads 20 0 (mkStreamer dev)
    rcases hfa : firstAttach dev env with ⟨os, evs⟩
    rcases os with _ | s1
    · have hnos := firstAttach_none_no_sends dev env _ hfa
      have hfb : firstBytes (video_stream_ws st (some dev) env).2 = none := by
        simp only [video_stream_ws, hlk, hfa]
        simp only [firstBytes]
        have h2 : firstBytes (evs ++ [Ev.releaseLock dev]) =
            firstBytes [Ev.releaseLock dev] :=
          firstBytes_append_of_no_sends _ _ hnos
        simpa [firstBytes] using h2
      refine ⟨?_, ?_⟩
      · intro _ b hb
        rw [hfb] at hb
        exact Option.noConfusion hb
      · intro s2 hs2
        exact Option.noConfusion hs2
    · obtain ⟨hsr, hsi, hs1, b0, hb0, hb0ne, hevs⟩ :=
        firstAttach_some dev env s1 evs hfa
      subst hs1
      have hwf1 : wfStreamer (initLoop env.reads 20 0 (mkStreamer dev)).1 :=
        initLoop_wf env.reads 20 0 (mkStreamer dev) (mkStreamer_wf dev)
      have hfb : firstBytes (video_stream_ws st (some dev) env).2 = some b0 := by
        simp only [video_stream_ws, hlk, hfa]
        split_ifs <;>
          (simp only [hevs, hrep, List.append_eq, List.cons_append,
            List.nil_append, List.append_assoc, firstBytes]
           rw [firstBytes_append_of_no_sends _ _ (no_sends_replicate k)]
           simp [firstBytes])
      refine ⟨?_, ?_⟩
      · intro _ b hb
        rw [hfb] at hb
        injection hb with hb
        subst hb
        exact ⟨hb0, wf_blob_parts _ b0 hwf1 hb0⟩
      · intro s2 hs2
        exact Option.noConfusion hs2
  · have hwfs : wfStreamer s := hwf _ (lookupS_mem st.streamers dev s hlk)
    by_cases hpt : pyTruthy (get_initialization_data s) = true
    · obtain ⟨b0, hb0, hb0ne⟩ := pyTruthy_some _ hpt
      have hra : reuseAttach dev s env = (true, [Ev.sendBytes b0]) := by
        unfold reuseAttach
        rw [if_pos hpt, hb0]
        rfl
      have hfb : firstBytes (video_stream_ws st (some dev) env).2 = some b0 := by
        simp only [video_stream_ws, hlk, hra]
        split_ifs <;> simp [firstBytes]
      refine ⟨?_, ?_⟩
      · intro habs
        exact Option.noConfusion habs
      · intro s2 hs2 b hb
        injection hs2 with hs2
        subst hs2
        rw [hfb] at hb
        injection hb with hb
        subst hb
        exact ⟨hb0, wf_blob_parts _ b0 hwfs hb0⟩
    · have hra : reuseAttach dev s env = (false,
          List.replicate 10 Ev.sleepHalfSec ++
          (if env.reuseErrWritable = true then
            [Ev.sendJsonError ("Initialization data not ready for device "
              ++ dev ++ " after 5 seconds")]
           else [])) := by
        unfold reuseAttach
        rw [if_neg (by simpa using hpt)]
      have hfb : firstBytes (video_stream_ws st (some dev) env).2 = none := by
        simp only [video_stream_ws, hlk, hra]
        simp only [firstBytes]
        split_ifs <;>
          (simp only [List.append_eq, List.cons_append, List.nil_append,
            List.append_assoc, firstBytes]
           (try rw [firstBytes_append_of_no_sends _ _ (no_sends_replicate 10)])
           (try simp [firstBytes]))
      refine ⟨?_, ?_⟩
      · intro habs
        exact Option.noConfusion habs
      · intro s2 hs2 b hb
        rw [hfb] at hb
        exact Option.noConfusion hb


lemma endEvs_no_create (en : StreamEnd) (d2 : String) :
    Ev.createStreamer d2 ∉ endEvs en := by
  rcases en with ⟨m, w⟩ | _ | ⟨m, w⟩ <;> simp [endEvs] <;> split_ifs <;> simp

lemma endEvs_no_start (en : StreamEnd) (d2 : String) :
    Ev.startCapture d2 ∉ endEvs en := by
  rcases en with ⟨m, w⟩ | _ | ⟨m, w⟩ <;> simp [endEvs] <;> split_ifs <;> simp

lemma endEvs_no_lock (en : StreamEnd) :
    ∀ e ∈ endEvs en, lockEv e = false := by
  rcases en with ⟨m, w⟩ | _ | ⟨m, w⟩ <;> intro e he <;>
    simp [endEvs] at he <;>
    first
    | (revert he; split_ifs <;> intro he <;> simp at he <;> simp [he, lockEv])
    | simp [he, lockEv]

/-- C1: an attach that finds an existing streamer for the device never
constructs or starts another one; every streamer creation happens strictly
between the acquisition and the release of that device lock; and the
registry keeps at most one streamer per device id (no duplicate keys). -/
theorem one_session_per_device (st : MediaState) (dev : String) (env : StreamEnv) :
    (∀ s, lookupS st.streamers dev = some s →
      (∀ d2, Ev.createStreamer d2 ∉ (video_stream_ws st (some dev) env).2) ∧
      (∀ d2, Ev.startCapture d2 ∉ (video_stream_ws st (some dev) env).2)) ∧
    (∃ mid tail, (video_stream_ws st (some dev) env).2 =
      [Ev.acceptWs, Ev.acquireLock dev] ++ mid ++ [Ev.releaseLock dev] ++ tail ∧
      (∀ e ∈ mid, lockEv e = false) ∧
      (∀ d2, Ev.createStreamer d2 ∈ mid → d2 = dev) ∧
      (∀ d2, Ev.createStreamer d2 ∉ tail)) ∧
    ((st.streamers.map Prod.fst).Nodup →
      ((video_stream_ws st (some dev) env).1.streamers.map Prod.fst).Nodup) := by
  rcases hlk : lookupS st.streamers dev with _ | s
  · rcases hfa : firstAttach dev env with ⟨os, evs⟩
    have hmid1 : ∀ e ∈ evs, lockEv e = false := by
      have h := firstAttach_all dev env (fun e => !(lockEv e)) rfl rfl rfl rfl
        rfl (fun b => rfl) (fun m => rfl)
      rw [hfa] at h
      intro e he
      have h2 := List.all_eq_true.mp h e he
      simpa using h2
    have hmid2 : ∀ d2, Ev.createStreamer d2 ∈ evs → d2 = dev := by
      have h := firstAttach_all dev env
        (fun e => match e with
          | Ev.createStreamer d3 => decide (d3 = dev)
          | _ => true) (by simp) rfl rfl rfl rfl (fun b => rfl) (fun m => rfl)
      rw [hfa] at h
      intro d2 hd2
      have h2 := List.all_eq_true.mp h _ hd2
      simpa using h2
    refine ⟨?_, ?_, ?_⟩
    · intro s2 hs2
      exact Option.noConfusion hs2
    · rcases os with _ | s1
      · exact ⟨evs, [], by simp [video_stream_ws, hlk, hfa], hmid1, hmid2,
          by simp⟩
      · by_cases hff : (forwardLoop s1 env.frames env.ending).2.2 = true
        · refine ⟨evs, (env.frames.map Ev.sendBytes ++ endEvs env.ending) ++
            [Ev.acquireLock dev, Ev.stopStreamer dev, Ev.removeStreamer dev,
              Ev.releaseLock dev], ?_, hmid1, hmid2, ?_⟩
          · simp [video_stream_ws, hlk, hfa, hff, forwardLoop_evs_eq]
          · intro d2
            simp [List.mem_append, endEvs_no_create]
        · refine ⟨evs, env.frames.map Ev.sendBytes ++ endEvs env.ending, ?_,
            hmid1, hmid2, ?_⟩
          · simp [video_stream_ws, hlk, hfa, hff, forwardLoop_evs_eq]
          · intro d2
            simp [List.mem_append, endEvs_no_create]
    · intro hnd
      rcases os with _ | s1 <;>
        simp only [video_stream_ws, hlk, hfa] <;>
        (try split_ifs) <;>
        (try dsimp only) <;>
        first
        | exact removeS_keys_nodup _ _ (setS_keys_nodup _ _ _ hnd)
        | exact setS_keys_nodup _ _ _ hnd
        | exact removeS_keys_nodup _ _ hnd
        | exact hnd
  · by_cases hpt : pyTruthy (get_initialization_data s) = true
    · have hra : reuseAttach dev s env =
          (true, [Ev.sendBytes ((get_initialization_data s).getD [])]) := by
        unfold reuseAttach
        rw [if_pos hpt]
      refine ⟨?_, ?_, ?_⟩
      · intro s2 hs2
        constructor <;>
          intro d2 hmem <;>
          simp only [video_stream_ws, hlk, hra] at hmem <;>
          revert hmem <;>
          split_ifs <;>
          intro hmem <;>
          simp [forwardLoop_evs_eq, List.mem_append, endEvs_no_create,
            endEvs_no_start] at hmem
      · by_cases hff : (forwardLoop s env.frames env.ending).2.2 = true
        · refine ⟨[Ev.sendBytes ((get_initialization_data s).getD [])],
            (env.frames.map Ev.sendBytes ++ endEvs env.ending) ++
              [Ev.acquireLock dev, Ev.stopStreamer dev, Ev.removeStreamer dev,
                Ev.releaseLock dev], ?_, by simp [lockEv], by simp, ?_⟩
          · simp [video_stream_ws, hlk, hra, hff, forwardLoop_evs_eq]
          · intro d2
            simp [List.mem_append, endEvs_no_create]
        · refine ⟨[Ev.sendBytes ((get_initialization_data s).getD [])],
            env.frames.map Ev.sendBytes ++ endEvs env.ending, ?_,
            by simp [lockEv], by simp, ?_⟩
          · simp [video_stream_ws, hlk, hra, hff, forwardLoop_evs_eq]
          · intro d2
            simp [List.mem_append, endEvs_no_create]
      · intro hnd
        simp only [video_stream_ws, hlk, hra]
        split_ifs <;>
          dsimp only <;>
          first
          | exact removeS_keys_nodup _ _ hnd
          | exact setS_keys_nodup _ _ _ hnd
          | exact hnd
    · have hra : reuseAttach dev s env = (false,
          List.replicate 10 Ev.sleepHalfSec ++
          (if env.reuseErrWritable = true then
            [Ev.sendJsonError ("Initialization data not ready for device "
              ++ dev ++ " after 5 seconds")]
           else [])) := by
        unfold reuseAttach
        rw [if_neg (by simpa using hpt)]
      refine ⟨?_, ?_, ?_⟩
      · intro s2 hs2
        constructor <;>
          intro d2 hmem <;>
          simp only [video_stream_ws, hlk, hra] at hmem <;>
          revert hmem <;>
          split_ifs <;>
          intro hmem <;>
          simp_all [List.mem_append, List.mem_replicate]
      · refine ⟨List.replicate 10 Ev.sleepHalfSec ++
          (if env.reuseErrWritable = true then
            [Ev.sendJsonError ("Initialization data not ready for device "
              ++ dev ++ " after 5 seconds")]
           else []), [], ?_, ?_, ?_, by simp⟩
        · simp [video_stream_ws, hlk, hra]
        · intro e he
          simp only [List.mem_append, List.mem_replicate] at he
          rcases he with ⟨h1, h2⟩ | he
          · simp [h2, lockEv]
          · revert he
            split_ifs <;> intro he <;> simp at he
            simp [he, lockEv]
        · intro d2 hd2
          simp only [List.mem_append, List.mem_replicate] at hd2
          rcases hd2 with ⟨h1, h2⟩ | hd2
          · exact Ev.noConfusion h2
          · revert hd2
            split_ifs <;> intro hd2 <;> simp at hd2
      · intro hnd
        simp only [video_stream_ws, hlk, hra]
        split_ifs <;>
          (try dsimp only) <;>
          first
          | exact hnd
          | exact removeS_keys_nodup _ _ hnd
          | exact setS_keys_nodup _ _ _ hnd
          | simp_all

/-- Witness for C1: a concrete failed first attach leaves a duplicate-free registry. -/
theorem one_session_per_device_witness :
    ((video_stream_ws ⟨[], []⟩ (some "d1")
      ⟨none, fun _ => ReadResult.err "t", none, true, true, [],
        StreamEnd.disconnect⟩).1.streamers.map Prod.fst).Nodup :=
  (one_session_per_device ⟨[], []⟩ "d1"
    ⟨none, fun _ => ReadResult.err "t", none, true, true, [],
      StreamEnd.disconnect⟩).2.2 (by simp)

/-- Witness for C2: the blob delivered to a second viewer of a cached
session is exactly the bootstrap blob of that session, and it splits as
the cached SPS, PPS and IDR with the right NAL types, all non-empty. -/
theorem bootstrap_blob_first_frame_witness :
    get_initialization_data (⟨"d1", 1280, 4000000, some [0, 0, 0, 1, 103, 1],
      some [0, 0, 0, 1, 104, 2], some [0, 0, 0, 1, 101, 3]⟩ : ScrcpyStreamer) =
      some [0, 0, 0, 1, 103, 1, 0, 0, 0, 1, 104, 2, 0, 0, 0, 1, 101, 3] ∧
    ∃ sps pps idr : List Nat, nalTypeOf sps = 7 ∧ nalTypeOf pps = 8 ∧
      nalTypeOf idr = 5 ∧ sps ≠ [] ∧ pps ≠ [] ∧ idr ≠ [] ∧
      ([0, 0, 0, 1, 103, 1, 0, 0, 0, 1, 104, 2, 0, 0, 0, 1, 101, 3] :
        List Nat) = sps ++ pps ++ idr := by
  have hwf : ∀ p ∈ ([(("d1" : String), (⟨"d1", 1280, 4000000,
      some [0, 0, 0, 1, 103, 1], some [0, 0, 0, 1, 104, 2],
      some [0, 0, 0, 1, 101, 3]⟩ : ScrcpyStreamer))] :
        List (String × ScrcpyStreamer)), wfStreamer p.2 := by
    intro p hp
    simp only [List.mem_singleton] at hp
    subst hp
    refine ⟨?_, ?_, ?_⟩ <;> intro u hu <;> injection hu with h <;> subst h <;>
      decide
  have h := (bootstrap_blob_first_frame ⟨[("d1", ⟨"d1", 1280, 4000000,
      some [0, 0, 0, 1, 103, 1], some [0, 0, 0, 1, 104, 2],
      some [0, 0, 0, 1, 101, 3]⟩)], ["d1"]⟩ "d1"
      ⟨none, fun _ => ReadResult.err "t", none, true, true, [],
        StreamEnd.disconnect⟩ hwf).2
    ⟨"d1", 1280, 4000000, some [0, 0, 0, 1, 103, 1],
      some [0, 0, 0, 1, 104, 2], some [0, 0, 0, 1, 101, 3]⟩ (by decide)
    [0, 0, 0, 1, 103, 1, 0, 0, 0, 1, 104, 2, 0, 0, 0, 1, 101, 3] (by decide)
  obtain ⟨h1, sps, pps, idr, hc1, hc2, hc3, ht7, ht8, ht5, hn1, hn2, hn3,
    heq⟩ := h
  exact ⟨h1, sps, pps, idr, ht7, ht8, ht5, hn1, hn2, hn3, heq⟩

/-- Witness for C3: with every read failing, the attach ends unregistered and the timeout error is reported. -/
theorem init_timeout_teardown_witness :
    lookupS (video_stream_ws ⟨[], []⟩ (some "d1")
      ⟨none, fun _ => ReadResult.err "t", none, true, true, [],
        StreamEnd.disconnect⟩).1.streamers "d1" = none ∧
    Ev.sendJsonError "Failed to get initialization data (missing SPS/PPS/IDR)"
      ∈ (video_stream_ws ⟨[], []⟩ (some "d1")
        ⟨none, fun _ => ReadResult.err "t", none, true, true, [],
          StreamEnd.disconnect⟩).2 := by
  have h := init_timeout_teardown ⟨[], []⟩ "d1"
    ⟨none, fun _ => ReadResult.err "t", none, true, true, [],
      StreamEnd.disconnect⟩ rfl rfl (by decide)
  exact ⟨h.2.2.2.1, h.2.1 rfl⟩

/-- Witness for C4: a concrete mid-stream connection error removes the session and reports the error. -/
theorem transport_error_vs_disconnect_witness :
    lookupS (video_stream_ws ⟨[("d1", ⟨"d1", 1280, 4000000,
        some [0, 0, 0, 1, 103, 1], some [0, 0, 0, 1, 104, 2],
        some [0, 0, 0, 1, 101, 3]⟩)], ["d1"]⟩ (some "d1")
      ⟨none, fun _ => ReadResult.err "t", none, true, true, [],
        StreamEnd.connError "reset" true⟩).1.streamers "d1" = none ∧
    Ev.sendJsonError "Stream error: reset" ∈
      (video_stream_ws ⟨[("d1", ⟨"d1", 1280, 4000000,
          some [0, 0, 0, 1, 103, 1], some [0, 0, 0, 1, 104, 2],
          some [0, 0, 0, 1, 101, 3]⟩)], ["d1"]⟩ (some "d1")
        ⟨none, fun _ => ReadResult.err "t", none, true, true, [],
          StreamEnd.connError "reset" true⟩).2 := by
  have h := (transport_error_vs_disconnect ⟨[("d1", ⟨"d1", 1280, 4000000,
      some [0, 0, 0, 1, 103, 1], some [0, 0, 0, 1, 104, 2],
      some [0, 0, 0, 1, 101, 3]⟩)], ["d1"]⟩ "d1"
      ⟨none, fun _ => ReadResult.err "t", none, true, true, [],
        StreamEnd.connError "reset" true⟩
      ⟨"d1", 1280, 4000000, some [0, 0, 0, 1, 103, 1],
        some [0, 0, 0, 1, 104, 2], some [0, 0, 0, 1, 101, 3]⟩
      (by decide) (by decide)).1 "reset" true rfl
  exact ⟨h.1, h.2.2.2.1 rfl⟩

/-- Witness for C10: a concrete run without device id returns only the JSON error frame. -/
theorem missing_device_id_rejected_witness :
    video_stream_ws ⟨[], []⟩ none ⟨none, fun _ => ReadResult.err "t", none,
      true, true, [], StreamEnd.disconnect⟩ =
      (⟨[], []⟩, [Ev.acceptWs, Ev.sendJsonError "device_id is required"]) :=
  (missing_device_id_rejected ⟨[], []⟩ _).1

end AutoGLM
